import Mathlib

/-!
Verification of the audio-sentiment-profiling service (src/main.py).

The development shallowly embeds the pure and effectful parts of the
service in Lean:

* `create_wav_header` mirrors `create_wav_header` (main.py lines 22-58).
  Python integers are modelled as `Int`; `int.to_bytes(n, "little")` is
  modelled by `int_to_bytes`, which returns `none` exactly when Python
  raises `OverflowError` (value negative or not fitting in `n` bytes).
  Bytes are `Nat` values below 256.
* `analyze_audio_with_hume` mirrors the analyzer client (lines 96-154).
  The remote Hume endpoint is an oracle of type
  `Except String (Option (StreamResult sc tm))`: `Except.error` is any
  exception raised while connecting or streaming, `Except.ok none` is a
  falsy or prosody-less reply.  Scores and time stamps are carried
  opaquely (type parameters `sc`, `tm`); the program never inspects them.
* `upload_to_gcs` mirrors the uploader (lines 61-93); credential
  decoding, client creation and the upload call (lines 79-91) are folded
  into one oracle `Except String Unit` since each merely may raise.
* `handle_audio_stream` mirrors the request handler (lines 157-251),
  including the try/finally scratch-file cleanup and the outer exception
  handler.  A `Trace` records which stages ran and whether the temporary
  file still exists after the handler returns.
-/

/-- Little-endian byte list of a natural number, least significant byte
first, exactly `n` bytes. -/
def leBytes : Nat → Nat → List Nat
  | _, 0 => []
  | v, n + 1 => v % 256 :: leBytes (v / 256) n

/-- Decode a little-endian byte list back to a natural number. -/
def decodeLE : List Nat → Nat
  | [] => 0
  | b :: bs => b + 256 * decodeLE bs

/-- Model of Python `int.to_bytes(n, "little")`: succeeds exactly when
the value is nonnegative and fits in `n` bytes, otherwise Python raises
`OverflowError`, modelled as `none`. -/
def int_to_bytes (v : Int) (n : Nat) : Option (List Nat) :=
  if 0 ≤ v ∧ v < (256 : Int) ^ n then some (leBytes v.toNat n) else none

/-- Bytes of the ASCII tag RIFF. -/
def riffTag : List Nat := [82, 73, 70, 70]

/-- Bytes of the ASCII tag WAVE. -/
def waveTag : List Nat := [87, 65, 86, 69]

/-- Bytes of the ASCII tag fmt followed by a space. -/
def fmtTag : List Nat := [102, 109, 116, 32]

/-- Bytes of the ASCII tag data. -/
def dataTag : List Nat := [100, 97, 116, 97]

/-- Embedding of `create_wav_header` (main.py lines 22-58).  Field order
and values follow the source exactly; each `int_to_bytes` call mirrors
one `to_bytes` call, and Python floor division is `Int.fdiv`. -/
def create_wav_header (sample_rate data_size : Int) : Option (List Nat) :=
  let num_channels : Int := 1
  let bits_per_sample : Int := 16
  let byte_rate : Int := Int.fdiv (sample_rate * num_channels * bits_per_sample) 8
  let block_align : Int := Int.fdiv (num_channels * bits_per_sample) 8
  do
    let chunkSize ← int_to_bytes (36 + data_size) 4
    let subchunk1Size ← int_to_bytes 16 4
    let audioFormat ← int_to_bytes 1 2
    let numChannelsB ← int_to_bytes num_channels 2
    let sampleRateB ← int_to_bytes sample_rate 4
    let byteRateB ← int_to_bytes byte_rate 4
    let blockAlignB ← int_to_bytes block_align 2
    let bitsPerSampleB ← int_to_bytes bits_per_sample 2
    let dataSizeB ← int_to_bytes data_size 4
    return riffTag ++ chunkSize ++ waveTag ++ fmtTag ++ subchunk1Size ++
      audioFormat ++ numChannelsB ++ sampleRateB ++ byteRateB ++
      blockAlignB ++ bitsPerSampleB ++ dataTag ++ dataSizeB

/-- Embedding of `wav_data = wav_header + audio_data` (main.py lines
189-192): the framed artifact is the header followed by the payload. -/
def frame (sample_rate : Int) (audio_data : List Nat) : Option (List Nat) :=
  (create_wav_header sample_rate (audio_data.length : Int)).map
    (fun h => h ++ audio_data)

/-- The bytes of a field of an artifact: `n` bytes starting at byte
offset `off`. -/
def fieldBytes (art : List Nat) (off n : Nat) : List Nat :=
  (art.drop off).take n

/-- Process configuration: the environment variables read by the
service.  `none` models a variable that is unset or empty (falsy under
the source checks at main.py lines 74-75, 106-107 and 210-211). -/
structure EnvConfig where
  humeApiKey : Option String
  gcsCredentialsJson : Option String
  gcsBucketName : Option String

/-- One emotion entry of a remote prediction: a name and a score.  The
score type `sc` is opaque; the program copies scores without inspecting
them (main.py line 131). -/
structure RemoteEmotion (sc : Type) where
  name : String
  score : sc

/-- The time span of a remote prediction.  An absent attribute (the
hasattr checks at main.py lines 127-128) is modelled by `none`; the time
stamp type `tm` is opaque. -/
structure RemoteTime (tm : Type) where
  begin_ : Option tm
  end_ : Option tm

/-- One prediction window returned by the remote prosody model. -/
structure RemotePrediction (sc tm : Type) where
  time : RemoteTime tm
  emotions : List (RemoteEmotion sc)

/-- The prosody section of a remote reply. -/
structure RemoteProsody (sc tm : Type) where
  predictions : List (RemotePrediction sc tm)

/-- The reply object of `socket.send_file`.  A missing or falsy prosody
attribute is `none`; a present prosody object is truthy in Python even
when its prediction list is empty. -/
structure StreamResult (sc tm : Type) where
  prosody : Option (RemoteProsody sc tm)

/-- The formatted time dictionary built at main.py lines 126-129. -/
structure FormattedTime (tm : Type) where
  begin_ : Option tm
  end_ : Option tm

/-- The formatted emotion dictionary built at main.py line 131. -/
structure FormattedEmotion (sc : Type) where
  name : String
  score : sc

/-- The formatted prediction dictionary built at main.py lines 125-134. -/
structure FormattedPrediction (sc tm : Type) where
  time : FormattedTime tm
  emotions : List (FormattedEmotion sc)

/-- The dictionary returned by `analyze_audio_with_hume` (main.py lines
137-154).  Option fields model dictionary keys that are present only in
some of the three return sites: the success dictionary has no error key
and the failure dictionaries have no total_predictions key. -/
structure HumeAnalysis (sc tm : Type) where
  success : Bool
  error : Option String
  predictions : List (FormattedPrediction sc tm)
  total_predictions : Option Nat

/-- The per-prediction formatting step of the loop at main.py lines
124-135: the time span and every emotion (name, score) pair are copied in
order. -/
def formatPrediction {sc tm : Type} (p : RemotePrediction sc tm) :
    FormattedPrediction sc tm :=
  { time := { begin_ := p.time.begin_, end_ := p.time.end_ },
    emotions := p.emotions.map (fun e => { name := e.name, score := e.score }) }

/-- Embedding of `analyze_audio_with_hume` (main.py lines 96-154).  The
`remote` oracle is the behaviour of the connect-and-stream block inside
the try statement: `Except.error` is any exception raised there (caught
at line 148), `Except.ok` is the reply of `send_file`.  The missing-key
ValueError at line 108 is raised before the try block, so it is returned
as `Except.error` of the whole call, propagating to the caller. -/
def analyze_audio_with_hume {sc tm : Type} (env : EnvConfig)
    (remote : Except String (Option (StreamResult sc tm))) :
    Except String (HumeAnalysis sc tm) :=
  match env.humeApiKey with
  | none => Except.error "HUME_API_KEY environment variable not set"
  | some _ =>
    Except.ok (match remote with
      | Except.error e =>
        { success := false, error := some e, predictions := [],
          total_predictions := none }
      | Except.ok (some r) =>
        match r.prosody with
        | some p =>
          let formatted := p.predictions.map formatPrediction
          { success := true, error := none, predictions := formatted,
            total_predictions := some formatted.length }
        | none =>
          { success := false, error := some "No prosody predictions returned",
            predictions := [], total_predictions := none }
      | Except.ok none =>
        { success := false, error := some "No prosody predictions returned",
          predictions := [], total_predictions := none })

/-- Embedding of `upload_to_gcs` (main.py lines 61-93).  The `remote`
oracle folds credential decoding, client creation and the upload call
(lines 79-91), each of which merely may raise; on success the function
returns the locator built at line 93. -/
def upload_to_gcs (env : EnvConfig) (remote : Except String Unit)
    (bucket_name destination_blob_name : String) : Except String String :=
  match env.gcsCredentialsJson with
  | none =>
    Except.error "GOOGLE_APPLICATION_CREDENTIALS_JSON environment variable not set"
  | some _ =>
    match remote with
    | Except.error e => Except.error e
    | Except.ok _ => Except.ok ("gs://" ++ bucket_name ++ "/" ++ destination_blob_name)

/-- The behaviour of the external world during one request.  `humeRemote`
and `gcsRemote` are the two remote services; `assemblyFault` injects an
arbitrary unexpected exception raised inside the guarded scope after the
fan-out stage (the source has no raise site there of its own, but the
finally block at main.py lines 242-245 dominates any such fault, and the
claims quantify over unexpected faults in any later stage). -/
structure Oracles (sc tm : Type) where
  humeRemote : Except String (Option (StreamResult sc tm))
  gcsRemote : Except String Unit
  assemblyFault : Option String

/-- The JSON body assembled at main.py lines 221-236.  `gcs_path` and
`hume_analysis` are present in the dictionary only when truthy: the
upload locator is a nonempty string and the Hume dictionary is a
nonempty dictionary, so presence coincides with the Option being some. -/
structure ResponseData (sc tm : Type) where
  message : String
  filename : String
  uid : String
  sample_rate : Int
  data_size_bytes : Nat
  timestamp : String
  gcs_path : Option String
  hume_analysis : Option (HumeAnalysis sc tm)

/-- What the HTTP front end receives from the handler: a raised
HTTPException with a status code and detail string, or a JSONResponse
with a status code and body. -/
inductive HandlerResponse (sc tm : Type) where
  | httpError (status : Nat) (detail : String)
  | jsonOk (status : Nat) (body : ResponseData sc tm)

/-- Observable side effects of one handler run: which stages ran and
whether the temporary scratch file still exists when the handler
returns.  `uploaderCalled` records an actual invocation of
`upload_to_gcs` (skipped when the bucket name is unset). -/
structure Trace where
  framerCalled : Bool
  tempFileCreated : Bool
  tempFileExistsAfter : Bool
  analyzerCalled : Bool
  uploaderCalled : Bool

/-- The standard message of the OverflowError Python raises when a value
does not fit the requested to_bytes width. -/
def overflowMessage : String := "int too big to convert"

/-- Embedding of the request handler `handle_audio_stream` (main.py
lines 157-251).  Control flow follows the source: the empty-payload
check raises HTTPException 400 (re-raised unchanged at line 248); a
header overflow propagates to the outer handler as a 500; the temporary
file written at lines 195-197 is removed by the finally block at lines
242-245 on every exit of the inner try; an exception escaping the
analyzer (the missing-key ValueError) or the injected assembly fault is
converted at line 251 into HTTPException 500 whose detail embeds the
exception text; upload failures are caught at lines 217-219 and only
suppress the gcs_path field. -/
def handle_audio_stream {sc tm : Type} (env : EnvConfig) (o : Oracles sc tm)
    (audio_data : List Nat) (sample_rate : Int) (uid timestamp : String)
    (analyze_emotion save_to_gcs : Bool) :
    HandlerResponse sc tm × Trace :=
  if audio_data.isEmpty then
    (HandlerResponse.httpError 400 "No audio data received",
      ⟨false, false, false, false, false⟩)
  else
    match create_wav_header sample_rate (audio_data.length : Int) with
    | none =>
      (HandlerResponse.httpError 500 ("Internal server error: " ++ overflowMessage),
        ⟨true, false, false, false, false⟩)
    | some _wav_header =>
      match (if analyze_emotion
             then Except.map some (analyze_audio_with_hume env o.humeRemote)
             else Except.ok none) with
      | Except.error e =>
        (HandlerResponse.httpError 500 ("Internal server error: " ++ e),
          ⟨true, true, false, analyze_emotion, false⟩)
      | Except.ok hume_results =>
        let gcs_path : Option String :=
          if save_to_gcs then
            match env.gcsBucketName with
            | none => none
            | some bucket_name =>
              match upload_to_gcs env o.gcsRemote bucket_name
                  (uid ++ "_" ++ timestamp ++ ".wav") with
              | Except.ok p => some p
              | Except.error _ => none
          else none
        match o.assemblyFault with
        | some e =>
          (HandlerResponse.httpError 500 ("Internal server error: " ++ e),
            ⟨true, true, false, analyze_emotion,
              save_to_gcs && env.gcsBucketName.isSome⟩)
        | none =>
          (HandlerResponse.jsonOk 200
            { message := "Audio processed successfully"
              filename := uid ++ "_" ++ timestamp ++ ".wav"
              uid := uid
              sample_rate := sample_rate
              data_size_bytes := audio_data.length
              timestamp := timestamp
              gcs_path := gcs_path
              hume_analysis := hume_results },
            ⟨true, true, false, analyze_emotion,
              save_to_gcs && env.gcsBucketName.isSome⟩)

/-- A fully configured environment: Hume key, GCS credentials and bucket
all present. -/
def envFull : EnvConfig := ⟨some "key", some "creds", some "bucket"⟩

/-- An environment with the Hume API key unset but GCS fully
configured. -/
def envNoHume : EnvConfig := ⟨none, some "creds", some "bucket"⟩

/-- An environment with only the Hume API key configured. -/
def envHume : EnvConfig := ⟨some "key", none, none⟩

/-- Quiet oracles: the Hume reply is falsy, the upload succeeds, no
injected fault. -/
def oBase : Oracles Unit Unit := ⟨Except.ok none, Except.ok (), none⟩

/-- Oracles whose Hume connection raises a transport fault. -/
def oConn : Oracles Unit Unit :=
  ⟨Except.error "connection refused", Except.ok (), none⟩

/-- Oracles that inject an unexpected fault in the response-assembly
stage. -/
def oFault : Oracles Unit Unit := ⟨Except.ok none, Except.ok (), some "boom"⟩

/-- A remote prediction window used by concrete runs. -/
def sampleWindow : RemotePrediction Unit Unit :=
  ⟨⟨some (), some ()⟩, [⟨"Joy", ()⟩, ⟨"Calmness", ()⟩]⟩

/-- Oracles whose Hume reply has one prediction window and whose upload
raises the given fault. -/
def oUploadFail (e : String) : Oracles Unit Unit :=
  ⟨Except.ok (some ⟨some ⟨[sampleWindow]⟩⟩), Except.error e, none⟩

/-- A first concrete remote prediction window (scores and times carried
as naturals). -/
def remoteWindow1 : RemotePrediction Nat Nat :=
  ⟨⟨some 0, some 1⟩, [⟨"Joy", 7⟩, ⟨"Calmness", 3⟩]⟩

/-- A second concrete remote prediction window. -/
def remoteWindow2 : RemotePrediction Nat Nat :=
  ⟨⟨some 1, none⟩, [⟨"Anger", 5⟩]⟩

/-- A concrete prosody section with two windows. -/
def sampleProsody : RemoteProsody Nat Nat := ⟨[remoteWindow1, remoteWindow2]⟩

/-- A concrete remote reply carrying `sampleProsody`. -/
def sampleStream : StreamResult Nat Nat := ⟨some sampleProsody⟩

theorem leBytes_length (v n : Nat) : (leBytes v n).length = n := by
  induction n generalizing v with
  | zero => rfl
  | succ n ih => simp [leBytes, ih]

theorem decodeLE_leBytes (v n : Nat) (h : v < 256 ^ n) :
    decodeLE (leBytes v n) = v := by
  induction n generalizing v with
  | zero => simpa [leBytes, decodeLE] using (Nat.lt_one_iff.mp h).symm
  | succ n ih =>
    have hdiv : v / 256 < 256 ^ n := by
      rw [Nat.div_lt_iff_lt_mul (by norm_num : 0 < 256)]
      calc v < 256 ^ (n + 1) := h
        _ = 256 ^ n * 256 := by ring
    simp only [leBytes, decodeLE, ih (v / 256) hdiv]
    omega

theorem int_to_bytes_natCast (v n : Nat) (h : v < 256 ^ n) :
    int_to_bytes (v : Int) n = some (leBytes v n) := by
  unfold int_to_bytes
  rw [if_pos]
  · simp
  · constructor
    · exact Int.natCast_nonneg v
    · exact_mod_cast h

theorem int_to_bytes_eq_some (v : Int) (n : Nat) (h0 : 0 ≤ v)
    (h1 : v < 256 ^ n) : int_to_bytes v n = some (leBytes v.toNat n) := by
  unfold int_to_bytes
  rw [if_pos ⟨h0, h1⟩]

theorem int_to_bytes_some_iff {v : Int} {n : Nat} {w : List Nat} :
    int_to_bytes v n = some w ↔
      (0 ≤ v ∧ v < 256 ^ n) ∧ w = leBytes v.toNat n := by
  unfold int_to_bytes
  split
  · simp_all [eq_comm]
  · simp_all

set_option maxHeartbeats 2000000 in
/-- C1: for every positive sample rate whose derived byte rate fits four
bytes and every payload whose RIFF chunk size fits four bytes, the framed
artifact is the payload length plus 44 bytes long, the data-size field at
offset 40 is the little-endian encoding of the payload length, the RIFF
chunk-size field at offset 4 encodes 36 plus the payload length, the byte
rate field encodes sample rate times two, the block alignment field
encodes 2, and every multi-byte field is stored little-endian (it equals
the `leBytes` little-endian encoding of its value). -/
theorem framer_fields (sr : Nat) (payload : List Nat)
    (h1 : 0 < sr) (h2 : sr * 2 < 2 ^ 32) (h3 : 36 + payload.length < 2 ^ 32) :
    ∃ art, frame (sr : Int) payload = some art ∧
      art.length = payload.length + 44 ∧
      fieldBytes art 40 4 = leBytes payload.length 4 ∧
      decodeLE (fieldBytes art 40 4) = payload.length ∧
      fieldBytes art 4 4 = leBytes (36 + payload.length) 4 ∧
      decodeLE (fieldBytes art 4 4) = 36 + payload.length ∧
      fieldBytes art 28 4 = leBytes (sr * 2) 4 ∧
      decodeLE (fieldBytes art 28 4) = sr * 2 ∧
      fieldBytes art 32 2 = leBytes 2 2 ∧
      decodeLE (fieldBytes art 32 2) = 2 ∧
      fieldBytes art 24 4 = leBytes sr 4 ∧
      decodeLE (fieldBytes art 24 4) = sr ∧
      fieldBytes art 16 4 = leBytes 16 4 ∧
      fieldBytes art 20 2 = leBytes 1 2 ∧
      fieldBytes art 22 2 = leBytes 1 2 ∧
      fieldBytes art 34 2 = leBytes 16 2 := by
  have h2n : sr * 2 < 4294967296 := by
    calc sr * 2 < 2 ^ 32 := h2
      _ = 4294967296 := by norm_num
  have h3n : 36 + payload.length < 4294967296 := by
    calc 36 + payload.length < 2 ^ 32 := h3
      _ = 4294967296 := by norm_num
  have e1 : int_to_bytes (36 + (payload.length : Int)) 4 =
      some (leBytes (36 + payload.length) 4) := by
    have hc : (36 : Int) + (payload.length : Int) =
        ((36 + payload.length : Nat) : Int) := by push_cast; ring
    rw [hc]
    exact int_to_bytes_natCast _ 4 (by norm_num; omega)
  have e2 : int_to_bytes (16 : Int) 4 = some (leBytes 16 4) := by
    unfold int_to_bytes
    rw [if_pos (by norm_num)]
    simp
  have e3 : int_to_bytes (1 : Int) 2 = some (leBytes 1 2) := by
    unfold int_to_bytes
    rw [if_pos (by norm_num)]
    simp
  have e5 : int_to_bytes ((sr : Nat) : Int) 4 = some (leBytes sr 4) :=
    int_to_bytes_natCast sr 4 (by norm_num; omega)
  have hbr : Int.fdiv ((sr : Int) * 1 * 16) 8 = ((sr * 2 : Nat) : Int) := by
    have hm : ((sr : Int) * 1 * 16) = ((sr * 2 : Nat) : Int) * 8 := by
      push_cast; ring
    rw [hm, Int.mul_fdiv_cancel _ (by norm_num)]
  have e6 : int_to_bytes (Int.fdiv ((sr : Int) * 1 * 16) 8) 4 =
      some (leBytes (sr * 2) 4) := by
    rw [hbr]
    exact int_to_bytes_natCast _ 4 (by norm_num; omega)
  have e7 : int_to_bytes (Int.fdiv (1 * 16) 8) 2 = some (leBytes 2 2) := by
    rw [show Int.fdiv (1 * 16) 8 = ((2 : Nat) : Int) from rfl]
    exact int_to_bytes_natCast 2 2 (by norm_num)
  have e8 : int_to_bytes (16 : Int) 2 = some (leBytes 16 2) := by
    unfold int_to_bytes
    rw [if_pos (by norm_num)]
    simp
  have e9 : int_to_bytes ((payload.length : Nat) : Int) 4 =
      some (leBytes payload.length 4) :=
    int_to_bytes_natCast _ 4 (by norm_num; omega)
  have hH : create_wav_header (sr : Int) ((payload.length : Nat) : Int) =
      some (riffTag ++ leBytes (36 + payload.length) 4 ++ waveTag ++ fmtTag ++
        leBytes 16 4 ++ leBytes 1 2 ++ leBytes 1 2 ++ leBytes sr 4 ++
        leBytes (sr * 2) 4 ++ leBytes 2 2 ++ leBytes 16 2 ++ dataTag ++
        leBytes payload.length 4) := by
    unfold create_wav_header
    simp only [e1, e2, e3, e5, e6, e7, e8, e9]
    rfl
  refine ⟨riffTag ++ leBytes (36 + payload.length) 4 ++ waveTag ++ fmtTag ++
        leBytes 16 4 ++ leBytes 1 2 ++ leBytes 1 2 ++ leBytes sr 4 ++
        leBytes (sr * 2) 4 ++ leBytes 2 2 ++ leBytes 16 2 ++ dataTag ++
        leBytes payload.length 4 ++ payload, ?_, ?_, rfl, ?_, rfl, ?_, rfl, ?_,
        rfl, ?_, rfl, ?_, rfl, rfl, rfl, rfl⟩
  · unfold frame
    rw [hH]
    simp [List.append_assoc]
  · simp [riffTag, waveTag, fmtTag, dataTag, leBytes_length]
    omega
  · rw [show fieldBytes (riffTag ++ leBytes (36 + payload.length) 4 ++ waveTag ++
        fmtTag ++ leBytes 16 4 ++ leBytes 1 2 ++ leBytes 1 2 ++ leBytes sr 4 ++
        leBytes (sr * 2) 4 ++ leBytes 2 2 ++ leBytes 16 2 ++ dataTag ++
        leBytes payload.length 4 ++ payload) 40 4 =
        leBytes payload.length 4 from rfl]
    exact decodeLE_leBytes _ 4 (by norm_num; omega)
  · rw [show fieldBytes (riffTag ++ leBytes (36 + payload.length) 4 ++ waveTag ++
        fmtTag ++ leBytes 16 4 ++ leBytes 1 2 ++ leBytes 1 2 ++ leBytes sr 4 ++
        leBytes (sr * 2) 4 ++ leBytes 2 2 ++ leBytes 16 2 ++ dataTag ++
        leBytes payload.length 4 ++ payload) 4 4 =
        leBytes (36 + payload.length) 4 from rfl]
    exact decodeLE_leBytes _ 4 (by norm_num; omega)
  · rw [show fieldBytes (riffTag ++ leBytes (36 + payload.length) 4 ++ waveTag ++
        fmtTag ++ leBytes 16 4 ++ leBytes 1 2 ++ leBytes 1 2 ++ leBytes sr 4 ++
        leBytes (sr * 2) 4 ++ leBytes 2 2 ++ leBytes 16 2 ++ dataTag ++
        leBytes payload.length 4 ++ payload) 28 4 =
        leBytes (sr * 2) 4 from rfl]
    exact decodeLE_leBytes _ 4 (by norm_num; omega)
  · rw [show fieldBytes (riffTag ++ leBytes (36 + payload.length) 4 ++ waveTag ++
        fmtTag ++ leBytes 16 4 ++ leBytes 1 2 ++ leBytes 1 2 ++ leBytes sr 4 ++
        leBytes (sr * 2) 4 ++ leBytes 2 2 ++ leBytes 16 2 ++ dataTag ++
        leBytes payload.length 4 ++ payload) 32 2 =
        leBytes 2 2 from rfl]
    exact decodeLE_leBytes 2 2 (by norm_num)
  · rw [show fieldBytes (riffTag ++ leBytes (36 + payload.length) 4 ++ waveTag ++
        fmtTag ++ leBytes 16 4 ++ leBytes 1 2 ++ leBytes 1 2 ++ leBytes sr 4 ++
        leBytes (sr * 2) 4 ++ leBytes 2 2 ++ leBytes 16 2 ++ dataTag ++
        leBytes payload.length 4 ++ payload) 24 4 =
        leBytes sr 4 from rfl]
    exact decodeLE_leBytes sr 4 (by norm_num; omega)

/-- C1 witness: the framer theorem instantiated at sample rate 16000 and
the three-byte payload. -/
theorem framer_fields_witness :
    ∃ art, frame ((16000 : Nat) : Int) [1, 2, 3] = some art ∧
      art.length = 3 + 44 ∧
      fieldBytes art 40 4 = leBytes 3 4 ∧
      decodeLE (fieldBytes art 40 4) = 3 ∧
      fieldBytes art 4 4 = leBytes 39 4 ∧
      decodeLE (fieldBytes art 4 4) = 39 ∧
      fieldBytes art 28 4 = leBytes 32000 4 ∧
      decodeLE (fieldBytes art 28 4) = 32000 ∧
      fieldBytes art 32 2 = leBytes 2 2 ∧
      decodeLE (fieldBytes art 32 2) = 2 ∧
      fieldBytes art 24 4 = leBytes 16000 4 ∧
      decodeLE (fieldBytes art 24 4) = 16000 ∧
      fieldBytes art 16 4 = leBytes 16 4 ∧
      fieldBytes art 20 2 = leBytes 1 2 ∧
      fieldBytes art 22 2 = leBytes 1 2 ∧
      fieldBytes art 34 2 = leBytes 16 2 :=
  framer_fields 16000 [1, 2, 3] (by norm_num) (by norm_num) (by norm_num)

/-- C1 counterexample: the sample rate 2 ^ 31 is a positive integer, yet
the source raises OverflowError encoding the byte-rate field (the byte
rate 2 ^ 32 does not fit four bytes), so no framed artifact of any length
is produced; the claim as stated over every positive sample rate fails. -/
theorem framer_fields_counterexample :
    (0 : Int) < 2147483648 ∧ (2147483648 : Int) = 2 ^ 31 ∧
      frame 2147483648 [] = none :=
  ⟨by norm_num, by norm_num, by rfl⟩

set_option maxHeartbeats 1000000 in
/-- C10: `create_wav_header` returns a 44-byte header exactly when the
sample rate is nonnegative with its doubled value (the byte rate) below
2 ^ 32 and the data size is nonnegative with 36 plus it below 2 ^ 32; on
any argument outside this range, including any negative argument, the
byte encoding overflows and no header is returned.  The byte-rate bound
`sample_rate * 2 < 2 ^ 32` is strictly stronger than the bound
`sample_rate < 2 ^ 32` stated in the claim. -/
theorem header_domain (sample_rate data_size : Int) :
    (∃ h, create_wav_header sample_rate data_size = some h ∧ h.length = 44) ↔
      (0 ≤ sample_rate ∧ sample_rate * 2 < 2 ^ 32 ∧
        0 ≤ data_size ∧ 36 + data_size < 2 ^ 32) := by
  have hp4 : ((256 : Int) ^ 4) = 4294967296 := by norm_num
  have hbr : Int.fdiv (sample_rate * 1 * 16) 8 = sample_rate * 2 := by
    have hm : sample_rate * 1 * 16 = sample_rate * 2 * 8 := by ring
    rw [hm, Int.mul_fdiv_cancel _ (by norm_num)]
  simp only [show ((2 : Int) ^ 32) = 4294967296 from by norm_num]
  constructor
  · rintro ⟨h, hsome, -⟩
    unfold create_wav_header at hsome
    simp only [hbr, Option.bind_eq_bind, Option.bind_eq_some, int_to_bytes_some_iff,
      Option.pure_def, Option.some.injEq] at hsome
    obtain ⟨-, ⟨⟨hc0, hc1⟩, -⟩, -, -, -, -, -, -, -, ⟨⟨hs0, hs1⟩, -⟩,
      -, ⟨⟨hb0, hb1⟩, -⟩, -, -, -, -, -, ⟨⟨hd0, hd1⟩, -⟩, -⟩ := hsome
    rw [hp4] at hc1 hs1 hb1 hd1
    omega
  · rintro ⟨hs0, hs2, hd0, hd36⟩
    unfold create_wav_header
    simp only [hbr]
    rw [int_to_bytes_eq_some (36 + data_size) 4 (by omega) (by rw [hp4]; omega),
      int_to_bytes_eq_some 16 4 (by norm_num) (by norm_num),
      int_to_bytes_eq_some 1 2 (by norm_num) (by norm_num),
      int_to_bytes_eq_some sample_rate 4 (by omega) (by rw [hp4]; omega),
      int_to_bytes_eq_some (sample_rate * 2) 4 (by omega) (by rw [hp4]; omega),
      int_to_bytes_eq_some (Int.fdiv (1 * 16) 8) 2 (by decide) (by decide),
      int_to_bytes_eq_some 16 2 (by norm_num) (by norm_num),
      int_to_bytes_eq_some data_size 4 (by omega) (by rw [hp4]; omega)]
    refine ⟨_, rfl, ?_⟩
    simp [riffTag, waveTag, fmtTag, dataTag, leBytes_length]

/-- C10 counterexample: the sample rate 3221225472 satisfies the range
stated by the claim (nonnegative and below 2 ^ 32, with data size 0 in
range), yet the doubled byte rate overflows four bytes and the source
raises OverflowError, returning no header at all. -/
theorem header_domain_counterexample :
    ((0 : Int) ≤ 3221225472 ∧ (3221225472 : Int) < 2 ^ 32 ∧
      (0 : Int) ≤ 0 ∧ (36 : Int) + 0 < 2 ^ 32) ∧
      create_wav_header 3221225472 0 = none :=
  ⟨by norm_num, by rfl⟩

theorem isEmpty_false_of_ne_nil {α : Type} {l : List α} (h : l ≠ []) :
    l.isEmpty = false := by
  cases l with
  | nil => exact absurd rfl h
  | cons a t => rfl

/-- C2: for every request with a non-empty payload, on every exit path
after the temporary scratch file has been created (success, analyzer
failure, uploader failure, or an unexpected exception in a later stage),
the scratch file no longer exists when the handler returns: the finally
block always removes it. -/
theorem scratch_cleanup {sc tm : Type} (env : EnvConfig) (o : Oracles sc tm)
    (audio_data : List Nat) (sample_rate : Int) (uid timestamp : String)
    (analyze_emotion save_to_gcs : Bool) (hne : audio_data ≠ [])
    (hcreated : (handle_audio_stream env o audio_data sample_rate uid timestamp
        analyze_emotion save_to_gcs).2.tempFileCreated = true) :
    (handle_audio_stream env o audio_data sample_rate uid timestamp
        analyze_emotion save_to_gcs).2.tempFileExistsAfter = false := by
  clear hne hcreated
  unfold handle_audio_stream
  split
  · rfl
  · split
    · rfl
    · split
      · rfl
      · simp only
        split
        · rfl
        · rfl

/-- C2 witness: a concrete successful run creates the scratch file and
leaves no scratch file behind. -/
theorem scratch_cleanup_witness :
    ([1] ≠ ([] : List Nat)) ∧
    (handle_audio_stream envFull oBase [1] 8000 "u" "t" true true).2.tempFileCreated = true ∧
    (handle_audio_stream envFull oBase [1] 8000 "u" "t" true true).2.tempFileExistsAfter = false :=
  ⟨by decide, rfl,
    scratch_cleanup envFull oBase [1] 8000 "u" "t" true true (by decide) rfl⟩

/-- C7: a request with an empty payload is rejected with the client
error 400 before the framer runs, before any temporary file is created
and before any external call; and the emptiness check is the only
condition that stops a request before work begins, since every non-empty
payload reaches the framer. -/
theorem validate_first {sc tm : Type} (env : EnvConfig) (o : Oracles sc tm)
    (sample_rate : Int) (uid timestamp : String) (ae sg : Bool) :
    handle_audio_stream env o [] sample_rate uid timestamp ae sg =
      (HandlerResponse.httpError 400 "No audio data received",
        ⟨false, false, false, false, false⟩) ∧
    ∀ audio_data : List Nat, audio_data ≠ [] →
      (handle_audio_stream env o audio_data sample_rate uid timestamp ae
          sg).2.framerCalled = true := by
  refine ⟨rfl, ?_⟩
  intro audio_data hne
  cases audio_data with
  | nil => exact absurd rfl hne
  | cons a t =>
    unfold handle_audio_stream
    rw [if_neg (by simp : ¬((a :: t).isEmpty = true))]
    split
    · rfl
    · split
      · rfl
      · simp only
        split
        · rfl
        · rfl

/-- C7 witness: the empty-payload rejection and the framer invocation on
a one-byte payload, at concrete inputs. -/
theorem validate_first_witness :
    handle_audio_stream envFull oBase [] 8000 "u" "t" true true =
      (HandlerResponse.httpError 400 "No audio data received",
        ⟨false, false, false, false, false⟩) ∧
    (handle_audio_stream envFull oBase [1] 8000 "u" "t" true true).2.framerCalled = true :=
  ⟨(validate_first envFull oBase 8000 "u" "t" true true).1,
    (validate_first envFull oBase 8000 "u" "t" true true).2 [1] (by decide)⟩

/-- C6: with the API key configured, any failure raised while connecting
to or streaming against the Hume endpoint is caught inside the client
and converted into the failure dictionary carrying the cause string
rather than propagated, and the overall request still returns the 200
success response carrying that dictionary. -/
theorem analyzer_isolation {sc tm : Type} (env : EnvConfig) (key cause : String)
    (hk : env.humeApiKey = some key) (o : Oracles sc tm)
    (hrem : o.humeRemote = Except.error cause) (hfault : o.assemblyFault = none)
    (audio_data : List Nat) (sample_rate : Int) (uid timestamp : String)
    (sg : Bool) (hne : audio_data ≠ [])
    (hdr : ∃ w, create_wav_header sample_rate (audio_data.length : Int) = some w) :
    analyze_audio_with_hume env o.humeRemote =
      Except.ok ({ success := false
                   error := some cause
                   predictions := []
                   total_predictions := none } : HumeAnalysis sc tm) ∧
    ∃ rd tr, handle_audio_stream env o audio_data sample_rate uid timestamp true sg =
        (HandlerResponse.jsonOk 200 rd, tr) ∧
      rd.hume_analysis = some { success := false
                                error := some cause
                                predictions := []
                                total_predictions := none } := by
  have hana : analyze_audio_with_hume env o.humeRemote =
      Except.ok ({ success := false
                   error := some cause
                   predictions := []
                   total_predictions := none } : HumeAnalysis sc tm) := by
    rw [hrem]
    unfold analyze_audio_with_hume
    rw [hk]
  refine ⟨hana, ?_⟩
  obtain ⟨w, hw⟩ := hdr
  cases audio_data with
  | nil => exact absurd rfl hne
  | cons a t =>
    unfold handle_audio_stream
    rw [if_neg (by simp : ¬((a :: t).isEmpty = true))]
    rw [hw] at *
    rw [hw]
    simp only [if_true, hana, Except.map, hfault]
    exact ⟨_, _, rfl, rfl⟩

/-- C6 witness: a concrete connection fault at a concrete request is
caught and reported inside a 200 response. -/
theorem analyzer_isolation_witness :
    analyze_audio_with_hume envHume oConn.humeRemote =
      Except.ok ({ success := false
                   error := some "connection refused"
                   predictions := []
                   total_predictions := none } : HumeAnalysis Unit Unit) ∧
    ∃ rd tr, handle_audio_stream envHume oConn [1] 8000 "u" "t" true true =
        (HandlerResponse.jsonOk 200 rd, tr) ∧
      rd.hume_analysis = some { success := false
                                error := some "connection refused"
                                predictions := []
                                total_predictions := none } :=
  analyzer_isolation envHume "key" "connection refused" rfl oConn rfl rfl
    [1] 8000 "u" "t" true (by decide) ⟨_, rfl⟩

/-- C3 counterexample: with analysis enabled and HUME_API_KEY unset (GCS
fully configured), the request does not return a success response: the
ValueError raised at main.py line 108 escapes the analyzer, and the
outer handler turns it into a 500 server error. -/
theorem config_degradation_counterexample :
    (handle_audio_stream envNoHume oBase [2] 8000 "u" "t" true true).1 =
      HandlerResponse.httpError 500
        ("Internal server error: " ++ "HUME_API_KEY environment variable not set") :=
  rfl

/-- C3 amended: a missing destination bucket or missing archive
credentials only degrade the upload stage (the request still returns a
200 success whose body simply lacks the locator), but a missing
analysis-service API key with analysis enabled aborts the whole request
with a 500 server error instead of degrading the analysis stage. -/
theorem config_degradation {sc tm : Type} (env : EnvConfig) (o : Oracles sc tm)
    (audio_data : List Nat) (sample_rate : Int) (uid timestamp : String)
    (hne : audio_data ≠ [])
    (hdr : ∃ w, create_wav_header sample_rate (audio_data.length : Int) = some w)
    (hfault : o.assemblyFault = none) :
    (env.humeApiKey = none →
      (handle_audio_stream env o audio_data sample_rate uid timestamp true true).1 =
        HandlerResponse.httpError 500
          ("Internal server error: " ++ "HUME_API_KEY environment variable not set")) ∧
    (∀ key, env.humeApiKey = some key → env.gcsBucketName = none →
      ∃ rd tr, handle_audio_stream env o audio_data sample_rate uid timestamp true true =
          (HandlerResponse.jsonOk 200 rd, tr) ∧ rd.gcs_path = none) ∧
    (∀ key b, env.humeApiKey = some key → env.gcsCredentialsJson = none →
      env.gcsBucketName = some b →
      ∃ rd tr, handle_audio_stream env o audio_data sample_rate uid timestamp true true =
          (HandlerResponse.jsonOk 200 rd, tr) ∧ rd.gcs_path = none) := by
  obtain ⟨w, hw⟩ := hdr
  obtain ⟨a, t, rfl⟩ : ∃ a t, audio_data = a :: t := by
    cases audio_data with
    | nil => exact absurd rfl hne
    | cons a t => exact ⟨a, t, rfl⟩
  refine ⟨?_, ?_, ?_⟩
  · intro hk
    unfold handle_audio_stream
    rw [if_neg (by simp : ¬((a :: t).isEmpty = true)), hw]
    have hana : analyze_audio_with_hume env o.humeRemote =
        (Except.error "HUME_API_KEY environment variable not set" :
          Except String (HumeAnalysis sc tm)) := by
      unfold analyze_audio_with_hume
      rw [hk]
    simp only [if_true, hana, Except.map]
  · intro key hk hb
    unfold handle_audio_stream
    rw [if_neg (by simp : ¬((a :: t).isEmpty = true)), hw]
    unfold analyze_audio_with_hume
    rw [hk]
    simp only [if_true, Except.map, hb, hfault]
    exact ⟨_, _, rfl, rfl⟩
  · intro key b hk hcred hb
    unfold handle_audio_stream
    rw [if_neg (by simp : ¬((a :: t).isEmpty = true)), hw]
    unfold analyze_audio_with_hume upload_to_gcs
    rw [hk]
    simp only [if_true, Except.map, hb, hcred, hfault]
    exact ⟨_, _, rfl, rfl⟩

/-- C3 witness: the missing-key branch of the amended theorem at a
concrete request, plus the bucket-missing degradation at a concrete
request against an environment with only the key set. -/
theorem config_degradation_witness :
    (envNoHume.humeApiKey = none) ∧
    (handle_audio_stream envNoHume oBase [1] 8000 "u" "t" true true).1 =
      HandlerResponse.httpError 500
        ("Internal server error: " ++ "HUME_API_KEY environment variable not set") ∧
    ∃ rd tr, handle_audio_stream envHume oBase [1] 8000 "u" "t" true true =
        (HandlerResponse.jsonOk 200 rd, tr) ∧ rd.gcs_path = none :=
  ⟨rfl,
    (config_degradation envNoHume oBase [1] 8000 "u" "t" (by decide) ⟨_, rfl⟩ rfl).1 rfl,
    (config_degradation envHume oBase [1] 8000 "u" "t" (by decide) ⟨_, rfl⟩ rfl).2.1
      "key" rfl rfl⟩

/-- C4 counterexample: on an unexpected internal fault (the missing-key
ValueError), the 500 detail string is the fixed prefix followed by the
full text of the internal exception, so the message is not generic and
leaks internal exception detail to the caller. -/
theorem internal_fault_detail_counterexample :
    (handle_audio_stream envNoHume oBase [5] 8000 "alice" "t" true true).1 =
      HandlerResponse.httpError 500
        ("Internal server error: " ++ "HUME_API_KEY environment variable not set") :=
  rfl

/-- C4 amended: on any unexpected internal fault with message `f`, the
caller receives a 500 server error whose detail is the string
`Internal server error: ` followed by `f` itself — the status is a
server error, but the message embeds the internal exception text rather
than being generic. -/
theorem internal_fault_detail {sc tm : Type} (env : EnvConfig) (o : Oracles sc tm)
    (f : String) (audio_data : List Nat) (sample_rate : Int)
    (uid timestamp : String) (ae sg : Bool) (hne : audio_data ≠ [])
    (hdr : ∃ w, create_wav_header sample_rate (audio_data.length : Int) = some w)
    (hfault : o.assemblyFault = some f)
    (hae : ae = false ∨ ∃ key, env.humeApiKey = some key) :
    (handle_audio_stream env o audio_data sample_rate uid timestamp ae sg).1 =
      HandlerResponse.httpError 500 ("Internal server error: " ++ f) := by
  obtain ⟨w, hw⟩ := hdr
  obtain ⟨a, t, rfl⟩ : ∃ a t, audio_data = a :: t := by
    cases audio_data with
    | nil => exact absurd rfl hne
    | cons a t => exact ⟨a, t, rfl⟩
  unfold handle_audio_stream
  rw [if_neg (by simp : ¬((a :: t).isEmpty = true)), hw]
  rcases hae with hae | ⟨key, hk⟩
  · subst hae
    simp only [Bool.false_eq_true, if_false, hfault]
  · unfold analyze_audio_with_hume
    rw [hk]
    cases ae with
    | false => simp only [Bool.false_eq_true, if_false, hfault]
    | true => simp only [if_true, Except.map, hfault]

/-- C4 witness: a concrete injected fault with message `boom` produces
the 500 whose detail embeds `boom`. -/
theorem internal_fault_detail_witness :
    (oFault.assemblyFault = some "boom") ∧
    (handle_audio_stream envFull oFault [1] 8000 "u" "t" true true).1 =
      HandlerResponse.httpError 500 ("Internal server error: " ++ "boom") :=
  ⟨rfl, internal_fault_detail envFull oFault "boom" [1] 8000 "u" "t" true true
    (by decide) ⟨_, rfl⟩ rfl (Or.inr ⟨"key", rfl⟩)⟩

/-- C5 counterexample: two runs that differ only in the cause of the
upload fault produce byte-for-byte identical results, so the result
cannot carry the cause string of any Skipped outcome; the response is a
plain 200 success whose body simply has no locator field, and the
analyzer outcome is intact. -/
theorem upload_failure_counterexample :
    handle_audio_stream envFull (oUploadFail "permission denied")
        [9] 8000 "u" "t" true true =
      handle_audio_stream envFull (oUploadFail "quota exceeded")
        [9] 8000 "u" "t" true true ∧
    (handle_audio_stream envFull (oUploadFail "permission denied")
        [9] 8000 "u" "t" true true).1 =
      HandlerResponse.jsonOk 200
        { message := "Audio processed successfully"
          filename := "u" ++ "_" ++ "t" ++ ".wav"
          uid := "u"
          sample_rate := 8000
          data_size_bytes := 1
          timestamp := "t"
          gcs_path := none
          hume_analysis := some { success := true
                                  error := none
                                  predictions := [formatPrediction sampleWindow]
                                  total_predictions := some 1 } } :=
  ⟨rfl, rfl⟩

/-- C5 amended: with the bucket configured, an upload failure of any
cause is caught: the request still returns a 200 success, the body
carries no locator field (and no cause string), and the analyzer outcome
carried in the body is exactly the outcome the analyzer client computes
on its own, unaffected by the upload failure. -/
theorem upload_failure_isolated {sc tm : Type} (env : EnvConfig)
    (key bucket e : String) (hk : env.humeApiKey = some key)
    (hb : env.gcsBucketName = some bucket)
    (hr : Except String (Option (StreamResult sc tm)))
    (audio_data : List Nat) (sample_rate : Int) (uid timestamp : String)
    (hne : audio_data ≠ [])
    (hdr : ∃ w, create_wav_header sample_rate (audio_data.length : Int) = some w) :
    ∃ rd tr A,
      handle_audio_stream env ⟨hr, Except.error e, none⟩ audio_data sample_rate
          uid timestamp true true = (HandlerResponse.jsonOk 200 rd, tr) ∧
      rd.gcs_path = none ∧
      analyze_audio_with_hume env hr = Except.ok A ∧
      rd.hume_analysis = some A := by
  obtain ⟨w, hw⟩ := hdr
  obtain ⟨a, t, rfl⟩ : ∃ a t, audio_data = a :: t := by
    cases audio_data with
    | nil => exact absurd rfl hne
    | cons a t => exact ⟨a, t, rfl⟩
  have hA : ∃ A, analyze_audio_with_hume env hr = Except.ok A := by
    unfold analyze_audio_with_hume
    rw [hk]
    exact ⟨_, rfl⟩
  obtain ⟨A, hA⟩ := hA
  have hup : ∃ msg, upload_to_gcs env (Except.error e) bucket
      (uid ++ "_" ++ timestamp ++ ".wav") = Except.error msg := by
    unfold upload_to_gcs
    cases env.gcsCredentialsJson with
    | none => exact ⟨_, rfl⟩
    | some c => exact ⟨_, rfl⟩
  obtain ⟨msg, hmsg⟩ := hup
  unfold handle_audio_stream
  rw [if_neg (by simp : ¬((a :: t).isEmpty = true)), hw, hb]
  simp only [if_true, Except.map, hA, hmsg]
  exact ⟨_, _, A, rfl, rfl, rfl, rfl⟩

/-- C5 witness: the amended theorem at a concrete request whose upload
raises a permission fault. -/
theorem upload_failure_isolated_witness :
    (envFull.gcsBucketName = some "bucket") ∧
    ∃ rd tr A,
      handle_audio_stream envFull
          (⟨Except.ok none, Except.error "permission denied", none⟩ : Oracles Unit Unit)
          [1] 8000 "u" "t" true true = (HandlerResponse.jsonOk 200 rd, tr) ∧
      rd.gcs_path = none ∧
      analyze_audio_with_hume envFull (Except.ok (none : Option (StreamResult Unit Unit))) =
        Except.ok A ∧
      rd.hume_analysis = some A :=
  ⟨rfl, upload_failure_isolated envFull "key" "bucket" "permission denied" rfl rfl
    (Except.ok none) [1] 8000 "u" "t" (by decide) ⟨_, rfl⟩⟩

/-- C8: on a successful reply whose prosody section has a non-empty
prediction sequence, the analyzer reports success and maps each remote
window to a formatted window preserving the window order, each window
time span, and every (name, score) emotion pair in order, with no
reordering or filtering. -/
theorem hume_order {sc tm : Type} (env : EnvConfig) (key : String)
    (hk : env.humeApiKey = some key) (r : StreamResult sc tm)
    (p : RemoteProsody sc tm) (hp : r.prosody = some p)
    (hne : p.predictions ≠ []) :
    ∃ a, analyze_audio_with_hume env (Except.ok (some r)) = Except.ok a ∧
      a.success = true ∧
      a.predictions.length = p.predictions.length ∧
      a.total_predictions = some p.predictions.length ∧
      (∀ i : Nat, (a.predictions[i]?).map
          (fun pw => pw.emotions.map (fun em => (em.name, em.score))) =
        (p.predictions[i]?).map
          (fun pw => pw.emotions.map (fun em => (em.name, em.score)))) ∧
      (∀ i : Nat, (a.predictions[i]?).map (fun pw => (pw.time.begin_, pw.time.end_)) =
        (p.predictions[i]?).map (fun pw => (pw.time.begin_, pw.time.end_))) := by
  clear hne
  refine ⟨⟨true, none, p.predictions.map formatPrediction,
    some (p.predictions.map formatPrediction).length⟩, ?_, rfl, by simp, by simp,
    ?_, ?_⟩
  · unfold analyze_audio_with_hume
    simp only [hk, hp]
  · intro i
    simp only [List.getElem?_map]
    cases hi : p.predictions[i]? with
    | none => rfl
    | some pw => simp [formatPrediction, List.map_map, Function.comp]
  · intro i
    simp only [List.getElem?_map]
    cases hi : p.predictions[i]? with
    | none => rfl
    | some pw => simp [formatPrediction]

/-- C8 witness: the order-preservation theorem at a concrete reply with
two windows and three emotions. -/
theorem hume_order_witness :
    (sampleStream.prosody = some sampleProsody) ∧
    ∃ a, analyze_audio_with_hume envHume (Except.ok (some sampleStream)) =
        Except.ok a ∧
      a.success = true ∧
      a.predictions.length = sampleProsody.predictions.length ∧
      a.total_predictions = some sampleProsody.predictions.length ∧
      (∀ i : Nat, (a.predictions[i]?).map
          (fun pw => pw.emotions.map (fun em => (em.name, em.score))) =
        (sampleProsody.predictions[i]?).map
          (fun pw => pw.emotions.map (fun em => (em.name, em.score)))) ∧
      (∀ i : Nat, (a.predictions[i]?).map (fun pw => (pw.time.begin_, pw.time.end_)) =
        (sampleProsody.predictions[i]?).map
          (fun pw => (pw.time.begin_, pw.time.end_))) :=
  ⟨rfl, hume_order envHume "key" rfl sampleStream sampleProsody rfl
    (by simp [sampleProsody])⟩

/-- C9 counterexample: a reply with a present prosody section but an
empty prediction sequence is treated as a success with zero predictions
(the prosody object is truthy in Python), not as the unavailable outcome
with reason string claimed by the spec; the failure reason string the
code does use elsewhere is also `No prosody predictions returned`, not
`no predictions returned`. -/
theorem hume_empty_counterexample :
    analyze_audio_with_hume envHume
        (Except.ok (some (⟨some ⟨[]⟩⟩ : StreamResult Unit Unit))) =
      Except.ok { success := true
                  error := none
                  predictions := []
                  total_predictions := some 0 } :=
  rfl

/-- C9 amended: a reply that is falsy or lacks a prosody section yields
the normal (non-raised) failure dictionary with error string
`No prosody predictions returned`; but a reply with a present prosody
section and an empty prediction sequence yields a success dictionary
with zero predictions. -/
theorem hume_no_predictions {sc tm : Type} (env : EnvConfig) (key : String)
    (hk : env.humeApiKey = some key) :
    (∀ remote : Option (StreamResult sc tm),
      (remote = none ∨ ∃ r, remote = some r ∧ r.prosody = none) →
      analyze_audio_with_hume env (Except.ok remote) =
        Except.ok { success := false
                    error := some "No prosody predictions returned"
                    predictions := []
                    total_predictions := none }) ∧
    (∀ r : StreamResult sc tm, ∀ pr, r.prosody = some pr → pr.predictions = [] →
      analyze_audio_with_hume env (Except.ok (some r)) =
        Except.ok { success := true
                    error := none
                    predictions := []
                    total_predictions := some 0 }) := by
  constructor
  · rintro remote (rfl | ⟨r, rfl, hpr⟩)
    · unfold analyze_audio_with_hume
      simp only [hk]
    · unfold analyze_audio_with_hume
      simp only [hk, hpr]
  · intro r pr hpr hempty
    unfold analyze_audio_with_hume
    simp only [hk, hpr, hempty, List.map_nil]
    rfl

/-- C9 witness: the amended theorem at a falsy reply and at a reply with
an empty prosody prediction list. -/
theorem hume_no_predictions_witness :
    (envHume.humeApiKey = some "key") ∧
    analyze_audio_with_hume envHume
        (Except.ok (none : Option (StreamResult Unit Unit))) =
      Except.ok { success := false
                  error := some "No prosody predictions returned"
                  predictions := []
                  total_predictions := none } ∧
    analyze_audio_with_hume envHume
        (Except.ok (some (⟨some ⟨[]⟩⟩ : StreamResult Unit Unit))) =
      Except.ok { success := true
                  error := none
                  predictions := []
                  total_predictions := some 0 } :=
  ⟨rfl, (hume_no_predictions envHume "key" rfl).1 none (Or.inl rfl),
    (hume_no_predictions envHume "key" rfl).2 ⟨some ⟨[]⟩⟩ ⟨[]⟩ rfl rfl⟩
